import Mathlib

/-!
Verification of the PatternLighting UE5 plugin core against its design notes.

The numeric core of the plugin (pattern waveform evaluation, flash overlay,
spatial intensity/color aggregation, sync groups, clamped global setters) is
embedded shallowly over the rationals.  Engine floats are modelled as
exact rationals, the transcendental FMath::Sin and the engine constant PI are
abstract parameters (fsin, fpi) threaded through every evaluator, and
FVector::Dist is an abstract distance function parameter, since the plugin
treats all three as black boxes.  Weak object pointers become Option values:
none is a stale reference whose referent has been destroyed.
-/

namespace PatternLighting

/-- FMath::Clamp for scalars: arguments below lo map to lo, above hi to hi. -/
def fclamp (x lo hi : ℚ) : ℚ :=
  if x < lo then lo else if x > hi then hi else x

/-- FMath::Lerp: a + alpha * (b - a). -/
def flerp (a b alpha : ℚ) : ℚ := a + alpha * (b - a)

/-- Truncation toward zero, as C float conversion to integer does. -/
def qtrunc (q : ℚ) : ℤ := if 0 ≤ q then ⌊q⌋ else ⌈q⌉

/-- FMath::Fmod, the C fmod: x - y * trunc(x / y), sign follows the dividend. -/
def fmodq (x y : ℚ) : ℚ := x - y * (qtrunc (x / y) : ℚ)

/-- ELightPattern from PatternTypes.h. -/
inductive ELightPattern where
  | Steady
  | Pulse
  | Flicker
  | Strobe
  | Candle
  | Fluorescent
  | Lightning
  | Fire
  | Alarm
  | Underwater
  | Heartbeat
  | Breathing
  | Custom
deriving DecidableEq

/-- UCurveFloat as the core sees it: a time range upper bound
(GetTimeRange().Y) and a sampling function (GetFloatValue). -/
structure CurveFloat where
  timeRangeY : ℚ
  getFloatValue : ℚ → ℚ

/-- FLinearColor: four rational channels. -/
structure LinearColor where
  R : ℚ
  G : ℚ
  B : ℚ
  A : ℚ
deriving DecidableEq

/-- FLinearColor::Black is (0, 0, 0) with the default alpha 1. -/
def blackColor : LinearColor := ⟨0, 0, 0, 1⟩

/-- The additive identity for componentwise color sums. -/
def zeroColor : LinearColor := ⟨0, 0, 0, 0⟩

/-- FLinearColor operator+: componentwise, alpha included. -/
def colorAdd (c1 c2 : LinearColor) : LinearColor :=
  ⟨c1.R + c2.R, c1.G + c2.G, c1.B + c2.B, c1.A + c2.A⟩

/-- FLinearColor operator* with a scalar: componentwise, alpha included. -/
def colorScale (c : LinearColor) (s : ℚ) : LinearColor :=
  ⟨c.R * s, c.G * s, c.B * s, c.A * s⟩

/-- FLinearColor operator/ with a scalar: componentwise, alpha included. -/
def colorDiv (c : LinearColor) (s : ℚ) : LinearColor :=
  ⟨c.R / s, c.G / s, c.B / s, c.A / s⟩

/-- UCurveLinearColor as the core sees it. -/
structure CurveLinearColor where
  timeRangeY : ℚ
  getLinearColorValue : ℚ → LinearColor

/-- FVector restricted to what the core reads (X, Y, Z components). -/
structure Vec3 where
  X : ℚ
  Y : ℚ
  Z : ℚ
deriving DecidableEq

/-- The zero vector, a convenient concrete location. -/
def vzero : Vec3 := ⟨0, 0, 0⟩

/-- FPatternLightSettings from PatternTypes.h (the fields the runtime reads). -/
structure FPatternLightSettings where
  Pattern : ELightPattern
  Speed : ℚ
  PhaseOffset : ℚ
  MinIntensity : ℚ
  MaxIntensity : ℚ
  CustomCurve : Option CurveFloat
  bEnableColorShift : Bool
  ColorCurve : Option CurveLinearColor

/-- Runtime state of one UPatternLightComponent: its settings and public
fields plus the private CurrentTime / FlashTimer / FlashIntensityMultiplier.
Location stands for GetComponentLocation(). -/
structure LightState where
  PatternSettings : FPatternLightSettings
  BaseColor : LinearColor
  BaseIntensity : ℚ
  LightRadius : ℚ
  Location : Vec3
  CurrentTime : ℚ
  FlashTimer : ℚ
  FlashIntensityMultiplier : ℚ

/-- UPatternLightComponent::EvaluatePattern, the switch on the pattern kind
before the final lerp (the local variable Value, initialized to 1.0f; a case
that does not overwrite it, such as Custom with no curve, leaves it at 1).
fsin abstracts FMath::Sin and fpi abstracts the engine constant PI. -/
def EvaluatePatternRaw (fsin : ℚ → ℚ) (fpi : ℚ) (loc : Vec3)
    (ps : FPatternLightSettings) (T : ℚ) : ℚ :=
  match ps.Pattern with
  | .Steady => 1
  | .Pulse => 1/2 + 1/2 * fsin (T * 2 * fpi)
  | .Flicker => 7/10 + 3/10 * fsin (T * 20) * fsin (T * (73/10))
  | .Strobe => if fsin (T * 10) > 0 then 1 else 0
  | .Candle => 8/10 + 2/10 * (fsin (T * 12) * fsin (T * (57/10)) * fsin (T * (31/10)))
  | .Fluorescent =>
      let startup := fclamp (fmodq T 5 / 2) 0 1
      let buzz := 5/100 * fsin (T * 120)
      startup + buzz * startup
  | .Lightning => (max 0 (fsin (T * (1/2))))^20
  | .Fire => 7/10 + 3/10 * fsin (T * 8) * fsin (T * (43/10)) * fsin (T * (21/10))
  | .Alarm => if fsin (T * 4) > 0 then 1 else 1/5
  | .Underwater =>
      let caustic := fsin (loc.X * (1/100) + T) * fsin (loc.Y * (1/100) + T * (7/10))
      7/10 + 3/10 * caustic
  | .Heartbeat =>
      let beat := (fsin (T * (5/2)))^12
      let beat2 := (fsin (T * (5/2) + 3/10))^12 * (1/2)
      max beat beat2
  | .Breathing => 3/10 + 7/10 * (fsin (T * (1/2)) * (1/2) + 1/2)
  | .Custom =>
      match ps.CustomCurve with
      | some curve => curve.getFloatValue (fmodq T curve.timeRangeY)
      | none => 1

/-- UPatternLightComponent::EvaluatePattern, tail of the function: the raw
switch value mapped through FMath::Lerp(MinIntensity, MaxIntensity, Value). -/
def EvaluatePattern (fsin : ℚ → ℚ) (fpi : ℚ) (loc : Vec3)
    (ps : FPatternLightSettings) (T : ℚ) : ℚ :=
  flerp ps.MinIntensity ps.MaxIntensity (EvaluatePatternRaw fsin fpi loc ps T)

/-- UPatternLightComponent::GetCurrentIntensity. -/
def GetCurrentIntensity (fsin : ℚ → ℚ) (fpi : ℚ) (l : LightState) : ℚ :=
  l.BaseIntensity * EvaluatePattern fsin fpi l.Location l.PatternSettings l.CurrentTime
    * l.FlashIntensityMultiplier

/-- UPatternLightComponent::GetCurrentColor. -/
def GetCurrentColor (l : LightState) : LinearColor :=
  match l.PatternSettings.bEnableColorShift, l.PatternSettings.ColorCurve with
  | true, some curve =>
      curve.getLinearColorValue (fmodq l.CurrentTime curve.timeRangeY)
  | _, _ => l.BaseColor

/-- UPatternLightComponent::TickComponent on the component state: advance
CurrentTime by DeltaTime * Speed, then run the flash-timer update.  The
trailing UpdateLightProperties call only forwards the derived intensity and
color to the engine light and touches none of these fields. -/
def TickComponent (dt : ℚ) (l : LightState) : LightState :=
  let l1 := { l with CurrentTime := l.CurrentTime + dt * l.PatternSettings.Speed }
  if l1.FlashTimer > 0 then
    let t2 := l1.FlashTimer - dt
    if t2 ≤ 0 then { l1 with FlashTimer := t2, FlashIntensityMultiplier := 1 }
    else { l1 with FlashTimer := t2 }
  else l1

/-- UPatternLightComponent::TriggerFlash. -/
def TriggerFlash (duration flashIntensity : ℚ) (l : LightState) : LightState :=
  { l with FlashTimer := duration, FlashIntensityMultiplier := flashIntensity }

/-- UPatternLightComponent::SetPatternSpeed. -/
def SetPatternSpeed (newSpeed : ℚ) (l : LightState) : LightState :=
  { l with PatternSettings := { l.PatternSettings with Speed := fclamp newSpeed (1/100) 10 } }

/-- UPatternLightComponent::SyncWith (the Other argument is non-null here, so
the guard in the source always passes): copy CurrentTime and PhaseOffset. -/
def SyncWith (other l : LightState) : LightState :=
  { l with
      CurrentTime := other.CurrentTime,
      PatternSettings := { l.PatternSettings with PhaseOffset := other.PatternSettings.PhaseOffset } }

/-- A sequence of component ticks (one per frame). -/
def TickSeq (dts : List ℚ) (l : LightState) : LightState :=
  dts.foldl (fun st dt => TickComponent dt st) l

/-- FPatternLightingConfig, restricted to the fields the subsystem logic
reads (bEnabled, GlobalIntensity, GlobalSpeed; the rendering toggles are
never consulted by the core). -/
structure FPatternLightingConfig where
  bEnabled : Bool
  GlobalIntensity : ℚ
  GlobalSpeed : ℚ

/-- UPatternLightingSubsystem state: config, master clock, the registered
light list (weak pointers, hence Option entries), the pause flag, and the
function-local static CleanupTimer of Tick, which persists across calls and
therefore belongs to the state. -/
structure SubsystemState where
  GlobalConfig : FPatternLightingConfig
  MasterTime : ℚ
  RegisteredLights : List (Option LightState)
  bPaused : Bool
  CleanupTimer : ℚ

/-- UPatternLightingSubsystem::CleanupStaleReferences restricted to the
light list: drop entries whose referent is gone. -/
def CleanupStaleReferences (st : SubsystemState) : SubsystemState :=
  { st with RegisteredLights := st.RegisteredLights.filter Option.isSome }

/-- UPatternLightingSubsystem::Tick: early-out when disabled or paused,
otherwise advance MasterTime by DeltaTime * GlobalSpeed and run the periodic
stale-reference cleanup.  Registered lights are not advanced here. -/
def Tick (dt : ℚ) (st : SubsystemState) : SubsystemState :=
  if !st.GlobalConfig.bEnabled || st.bPaused then st
  else
    let st1 := { st with MasterTime := st.MasterTime + dt * st.GlobalConfig.GlobalSpeed }
    let ct := st1.CleanupTimer + dt
    if ct > 5 then { CleanupStaleReferences st1 with CleanupTimer := 0 }
    else { st1 with CleanupTimer := ct }

/-- UPatternLightingSubsystem::SetGlobalIntensity. -/
def SetGlobalIntensity (x : ℚ) (st : SubsystemState) : SubsystemState :=
  { st with GlobalConfig := { st.GlobalConfig with GlobalIntensity := fclamp x 0 2 } }

/-- UPatternLightingSubsystem::SetGlobalSpeed. -/
def SetGlobalSpeed (x : ℚ) (st : SubsystemState) : SubsystemState :=
  { st with GlobalConfig := { st.GlobalConfig with GlobalSpeed := fclamp x (1/10) 5 } }

/-- The loop body of UPatternLightingSubsystem::GetCombinedIntensityAt:
skip stale entries, and for each live light closer than its own radius add
CurrentIntensity * Square(1 - Distance / LightRadius) to the accumulator. -/
def combinedIntensityLoop (fsin : ℚ → ℚ) (fpi : ℚ) (dist : Vec3 → Vec3 → ℚ)
    (p : Vec3) (acc : ℚ) : List (Option LightState) → ℚ
  | [] => acc
  | none :: rest => combinedIntensityLoop fsin fpi dist p acc rest
  | some l :: rest =>
      let d := dist p l.Location
      combinedIntensityLoop fsin fpi dist p
        (if d < l.LightRadius then
          acc + GetCurrentIntensity fsin fpi l
            * ((1 - d / l.LightRadius) * (1 - d / l.LightRadius))
        else acc) rest

/-- UPatternLightingSubsystem::GetCombinedIntensityAt: the accumulated total
scaled by GlobalIntensity. -/
def GetCombinedIntensityAt (fsin : ℚ → ℚ) (fpi : ℚ) (dist : Vec3 → Vec3 → ℚ)
    (st : SubsystemState) (p : Vec3) : ℚ :=
  combinedIntensityLoop fsin fpi dist p 0 st.RegisteredLights
    * st.GlobalConfig.GlobalIntensity

/-- The loop body of UPatternLightingSubsystem::GetCombinedColorAt:
accumulate (TotalColor, TotalWeight), weighting each in-range live light's
current color by (1 - Distance / LightRadius) * CurrentIntensity. -/
def combinedColorLoop (fsin : ℚ → ℚ) (fpi : ℚ) (dist : Vec3 → Vec3 → ℚ)
    (p : Vec3) (totalColor : LinearColor) (totalWeight : ℚ) :
    List (Option LightState) → LinearColor × ℚ
  | [] => (totalColor, totalWeight)
  | none :: rest => combinedColorLoop fsin fpi dist p totalColor totalWeight rest
  | some l :: rest =>
      let d := dist p l.Location
      if d < l.LightRadius then
        let w := (1 - d / l.LightRadius) * GetCurrentIntensity fsin fpi l
        combinedColorLoop fsin fpi dist p
          (colorAdd totalColor (colorScale (GetCurrentColor l) w)) (totalWeight + w) rest
      else combinedColorLoop fsin fpi dist p totalColor totalWeight rest

/-- UPatternLightingSubsystem::GetCombinedColorAt: start from
FLinearColor::Black and weight 0, then divide by the total weight only when
it is positive. -/
def GetCombinedColorAt (fsin : ℚ → ℚ) (fpi : ℚ) (dist : Vec3 → Vec3 → ℚ)
    (st : SubsystemState) (p : Vec3) : LinearColor :=
  let r := combinedColorLoop fsin fpi dist p blackColor 0 st.RegisteredLights
  if r.2 > 0 then colorDiv r.1 r.2 else r.1

/-- UPatternLightingSubsystem::GetLightsInSyncGroup on one group's member
list: the live members in insertion order. -/
def GetLightsInSyncGroup (group : List (Option LightState)) : List LightState :=
  group.filterMap id

/-- UPatternLightingSubsystem::SyncGroup on one group's member list: when
more than one member is live, the first live member is the master and every
every other live member is synced to it; the result is the post-call state of
the live members, in order. -/
def SyncGroupRun (group : List (Option LightState)) : List LightState :=
  let lights := GetLightsInSyncGroup group
  if lights.length > 1 then
    match lights with
    | [] => []
    | master :: rest => master :: rest.map (fun l => SyncWith master l)
  else lights

/-- UPatternLightingBlueprintLibrary::EvaluatePattern: the standalone
evaluator with its own, shorter switch; T = Time * Speed, and every kind not
listed falls through to the default 1.0. -/
def LibraryEvaluatePattern (fsin : ℚ → ℚ) (fpi : ℚ) (pattern : ELightPattern)
    (time speed : ℚ) : ℚ :=
  let T := time * speed
  match pattern with
  | .Steady => 1
  | .Pulse => 1/2 + 1/2 * fsin (T * 2 * fpi)
  | .Flicker => 7/10 + 3/10 * fsin (T * 20) * fsin (T * (73/10))
  | .Strobe => if fsin (T * 10) > 0 then 1 else 0
  | .Candle => 8/10 + 2/10 * fsin (T * 12) * fsin (T * (57/10)) * fsin (T * (31/10))
  | .Fire => 7/10 + 3/10 * fsin (T * 8) * fsin (T * (43/10))
  | .Alarm => if fsin (T * 4) > 0 then 1 else 1/5
  | _ => 1

/-- Modelled from the spec: the closed-form waveform table of section 4.1,
written exactly as the spec states each formula (t already speed-scaled;
Underwater uses the position-dependent variant with a supplied location;
Custom samples the supplied curve and is 0 if absent).  This is the
spec-side definition that the refinement claim C2 compares against the
code-side evaluators. -/
def SpecTablePattern (fsin : ℚ → ℚ) (fpi : ℚ) (loc : Vec3)
    (customCurve : Option CurveFloat) (pattern : ELightPattern) (t : ℚ) : ℚ :=
  match pattern with
  | .Steady => 1
  | .Pulse => 1/2 + 1/2 * fsin (2 * fpi * t)
  | .Flicker => 7/10 + 3/10 * fsin (20 * t) * fsin ((73/10) * t)
  | .Strobe => if fsin (10 * t) > 0 then 1 else 0
  | .Candle => 8/10 + 2/10 * fsin (12 * t) * fsin ((57/10) * t) * fsin ((31/10) * t)
  | .Fluorescent =>
      let s := fclamp (fmodq t 5 / 2) 0 1
      let buzz := 5/100 * fsin (120 * t)
      s + buzz * s
  | .Lightning => (max 0 (fsin ((1/2) * t)))^20
  | .Fire => 7/10 + 3/10 * fsin (8 * t) * fsin ((43/10) * t) * fsin ((21/10) * t)
  | .Alarm => if fsin (4 * t) > 0 then 1 else 1/5
  | .Underwater => 7/10 + 3/10 * fsin ((1/100) * loc.X + t) * fsin ((1/100) * loc.Y + (7/10) * t)
  | .Heartbeat => max ((fsin ((5/2) * t))^12) ((1/2) * (fsin ((5/2) * t + 3/10))^12)
  | .Breathing => 3/10 + 7/10 * ((1/2) * fsin ((1/2) * t) + 1/2)
  | .Custom =>
      match customCurve with
      | some c => c.getFloatValue (fmodq t c.timeRangeY)
      | none => 0

/-! ### General-purpose lemmas about the numeric helpers -/

lemma fclamp_mem (x lo hi : ℚ) (h : lo ≤ hi) :
    lo ≤ fclamp x lo hi ∧ fclamp x lo hi ≤ hi := by
  unfold fclamp
  split_ifs <;> constructor <;> linarith

lemma unit_mul (a b : ℚ) (ha1 : -1 ≤ a) (ha2 : a ≤ 1) (hb1 : -1 ≤ b) (hb2 : b ≤ 1) :
    -1 ≤ a * b ∧ a * b ≤ 1 := by
  constructor <;> nlinarith

lemma unit_pow (n : ℕ) (a : ℚ) (h0 : 0 ≤ a) (h1 : a ≤ 1) : a ^ n ≤ 1 := by
  induction n with
  | zero => simp
  | succ k ih =>
      rw [pow_succ]
      nlinarith [pow_nonneg h0 k]

lemma flerp_between (a b r : ℚ) (h0 : 0 ≤ r) (h1 : r ≤ 1) :
    min a b ≤ flerp a b r ∧ flerp a b r ≤ max a b := by
  unfold flerp
  rcases le_total a b with h | h
  · rw [min_eq_left h, max_eq_right h]
    constructor <;> nlinarith
  · rw [min_eq_right h, max_eq_left h]
    constructor <;> nlinarith

/-- For every kind except Fluorescent and Custom, the raw switch value of
the component evaluator stays inside [0, 1] whenever the sine oracle is
bounded by 1 in absolute value, as the real FMath::Sin is. -/
lemma evaluatePatternRaw_bounds (fsin : ℚ → ℚ) (fpi : ℚ)
    (hb : ∀ x, |fsin x| ≤ 1) (loc : Vec3) (ps : FPatternLightSettings) (T : ℚ)
    (hF : ps.Pattern ≠ .Fluorescent) (hC : ps.Pattern ≠ .Custom) :
    0 ≤ EvaluatePatternRaw fsin fpi loc ps T
      ∧ EvaluatePatternRaw fsin fpi loc ps T ≤ 1 := by
  have hs : ∀ x, -1 ≤ fsin x ∧ fsin x ≤ 1 := fun x => abs_le.mp (hb x)
  cases hp : ps.Pattern with
  | Fluorescent => exact absurd hp hF
  | Custom => exact absurd hp hC
  | Steady =>
      simp only [EvaluatePatternRaw, hp]
      norm_num
  | Pulse =>
      simp only [EvaluatePatternRaw, hp]
      obtain ⟨h1, h2⟩ := hs (T * 2 * fpi)
      constructor <;> linarith
  | Flicker =>
      simp only [EvaluatePatternRaw, hp]
      obtain ⟨a1, a2⟩ := hs (T * 20)
      obtain ⟨b1, b2⟩ := hs (T * (73/10))
      obtain ⟨m1, m2⟩ := unit_mul _ _ a1 a2 b1 b2
      constructor <;> nlinarith
  | Strobe =>
      simp only [EvaluatePatternRaw, hp]
      split_ifs <;> norm_num
  | Candle =>
      simp only [EvaluatePatternRaw, hp]
      obtain ⟨a1, a2⟩ := hs (T * 12)
      obtain ⟨b1, b2⟩ := hs (T * (57/10))
      obtain ⟨c1, c2⟩ := hs (T * (31/10))
      obtain ⟨m1, m2⟩ := unit_mul _ _ a1 a2 b1 b2
      obtain ⟨n1, n2⟩ := unit_mul _ _ m1 m2 c1 c2
      constructor <;> nlinarith
  | Lightning =>
      simp only [EvaluatePatternRaw, hp]
      have h0 : (0:ℚ) ≤ max 0 (fsin (T * (1/2))) := le_max_left 0 _
      have h1 : max 0 (fsin (T * (1/2))) ≤ 1 :=
        max_le (by norm_num) (hs (T * (1/2))).2
      exact ⟨pow_nonneg h0 20, unit_pow 20 _ h0 h1⟩
  | Fire =>
      simp only [EvaluatePatternRaw, hp]
      obtain ⟨a1, a2⟩ := hs (T * 8)
      obtain ⟨b1, b2⟩ := hs (T * (43/10))
      obtain ⟨c1, c2⟩ := hs (T * (21/10))
      obtain ⟨m1, m2⟩ := unit_mul _ _ a1 a2 b1 b2
      obtain ⟨n1, n2⟩ := unit_mul _ _ m1 m2 c1 c2
      constructor <;> nlinarith
  | Alarm =>
      simp only [EvaluatePatternRaw, hp]
      split_ifs <;> norm_num
  | Underwater =>
      simp only [EvaluatePatternRaw, hp]
      obtain ⟨a1, a2⟩ := hs (loc.X * (1/100) + T)
      obtain ⟨b1, b2⟩ := hs (loc.Y * (1/100) + T * (7/10))
      obtain ⟨m1, m2⟩ := unit_mul _ _ a1 a2 b1 b2
      constructor <;> nlinarith
  | Heartbeat =>
      simp only [EvaluatePatternRaw, hp]
      have hA1 : (0:ℚ) ≤ (fsin (T * (5/2)))^12 := by positivity
      have hA2 : (fsin (T * (5/2)))^12 ≤ 1 := by
        calc (fsin (T * (5/2)))^12 ≤ |(fsin (T * (5/2)))^12| := le_abs_self _
          _ = |fsin (T * (5/2))|^12 := abs_pow _ 12
          _ ≤ 1 := unit_pow 12 _ (abs_nonneg _) (hb _)
      have hB2 : (fsin (T * (5/2) + 3/10))^12 ≤ 1 := by
        calc (fsin (T * (5/2) + 3/10))^12
            ≤ |(fsin (T * (5/2) + 3/10))^12| := le_abs_self _
          _ = |fsin (T * (5/2) + 3/10)|^12 := abs_pow _ 12
          _ ≤ 1 := unit_pow 12 _ (abs_nonneg _) (hb _)
      have hB0 : (0:ℚ) ≤ (fsin (T * (5/2) + 3/10))^12 := by positivity
      constructor
      · exact le_trans hA1 (le_max_left _ _)
      · exact max_le hA2 (by linarith)
  | Breathing =>
      simp only [EvaluatePatternRaw, hp]
      obtain ⟨h1, h2⟩ := hs (T * (1/2))
      constructor <;> linarith

/-- A sine oracle that is constantly 0 (used by witnesses). -/
def zeroF : ℚ → ℚ := fun _ => 0

/-- A sine oracle that is constantly 1: bounded by 1 in absolute value, and
a value the real sine attains, so it exhibits reachable worst cases. -/
def oneF : ℚ → ℚ := fun _ => 1

/-- A sine oracle that is constantly 1/2 (used by the C2 counterexample). -/
def halfF : ℚ → ℚ := fun _ => 1/2

/-- A Fluorescent configuration with MinIntensity 0, MaxIntensity 1. -/
def psFluoC3 : FPatternLightSettings :=
  { Pattern := .Fluorescent, Speed := 1, PhaseOffset := 0, MinIntensity := 0,
    MaxIntensity := 1, CustomCurve := none, bEnableColorShift := false,
    ColorCurve := none }

/-- A Steady configuration with MinIntensity 2, MaxIntensity 5. -/
def psSteadyW : FPatternLightSettings :=
  { Pattern := .Steady, Speed := 1, PhaseOffset := 0, MinIntensity := 2,
    MaxIntensity := 5, CustomCurve := none, bEnableColorShift := false,
    ColorCurve := none }

/-- A custom curve that always returns 2, with time range 1. -/
def curveTwoW : CurveFloat := { timeRangeY := 1, getFloatValue := fun _ => 2 }

/-- A Custom configuration using curveTwoW, MinIntensity 0, MaxIntensity 1. -/
def psCustomC3 : FPatternLightSettings :=
  { Pattern := .Custom, Speed := 1, PhaseOffset := 0, MinIntensity := 0,
    MaxIntensity := 1, CustomCurve := some curveTwoW,
    bEnableColorShift := false, ColorCurve := none }

/-- Claim C3 counterexample: with a bounded sine oracle (constant 1, a value
the real sine attains on the Fluorescent worst case), the Fluorescent
pattern with MinIntensity 0 and MaxIntensity 1 evaluates at t = 4 to 21/20,
which exceeds max(MinIntensity, MaxIntensity): the startup ramp is at 1 and
the buzz term pushes the raw value to 1.05 before the (clamp-free) lerp.
The Custom kind likewise escapes the band: a curve returning 2 yields a
configured value of 2 against the same [0, 1] endpoints. -/
theorem C3_counterexample_fluorescent_exceeds_max :
    (∀ x : ℚ, |oneF x| ≤ 1)
    ∧ EvaluatePattern oneF 0 vzero psFluoC3 4 = 21/20
    ∧ ¬(EvaluatePattern oneF 0 vzero psFluoC3 4
          ≤ max psFluoC3.MinIntensity psFluoC3.MaxIntensity)
    ∧ EvaluatePattern oneF 0 vzero psCustomC3 (1/2) = 2
    ∧ ¬(EvaluatePattern oneF 0 vzero psCustomC3 (1/2)
          ≤ max psCustomC3.MinIntensity psCustomC3.MaxIntensity) := by
  refine ⟨fun x => by norm_num [oneF], ?_, ?_, ?_, ?_⟩
  · norm_num [EvaluatePattern, EvaluatePatternRaw, psFluoC3, oneF, flerp,
      fclamp, fmodq, qtrunc]
  · norm_num [EvaluatePattern, EvaluatePatternRaw, psFluoC3, oneF, flerp,
      fclamp, fmodq, qtrunc]
  · norm_num [EvaluatePattern, EvaluatePatternRaw, psCustomC3, curveTwoW,
      oneF, flerp, fclamp, fmodq, qtrunc]
  · norm_num [EvaluatePattern, EvaluatePatternRaw, psCustomC3, curveTwoW,
      oneF, flerp, fclamp, fmodq, qtrunc]

/-- Claim C3 (amended): for every pattern kind other than Fluorescent and
Custom, every configuration (either ordering of MinIntensity and
MaxIntensity) and every time, the configured value
lerp(MinIntensity, MaxIntensity, raw) stays inside
[min(MinIntensity, MaxIntensity), max(MinIntensity, MaxIntensity)] whenever
the sine oracle is bounded by 1; for Fluorescent (raw up to 1.05) and for
Custom (raw is whatever the user curve returns) the bound fails. -/
theorem C3_lerp_within_min_max (fsin : ℚ → ℚ) (fpi : ℚ)
    (hb : ∀ x, |fsin x| ≤ 1) (loc : Vec3) (ps : FPatternLightSettings) (T : ℚ)
    (hF : ps.Pattern ≠ .Fluorescent) (hC : ps.Pattern ≠ .Custom) :
    min ps.MinIntensity ps.MaxIntensity ≤ EvaluatePattern fsin fpi loc ps T
      ∧ EvaluatePattern fsin fpi loc ps T ≤ max ps.MinIntensity ps.MaxIntensity := by
  obtain ⟨h0, h1⟩ := evaluatePatternRaw_bounds fsin fpi hb loc ps T hF hC
  exact flerp_between ps.MinIntensity ps.MaxIntensity _ h0 h1

/-- Witness for C3: concrete instance with all hypotheses discharged. -/
theorem C3_lerp_within_min_max_witness :
    (∀ x : ℚ, |zeroF x| ≤ 1)
    ∧ psSteadyW.Pattern ≠ .Fluorescent
    ∧ psSteadyW.Pattern ≠ .Custom
    ∧ (min psSteadyW.MinIntensity psSteadyW.MaxIntensity
          ≤ EvaluatePattern zeroF 0 vzero psSteadyW 0
        ∧ EvaluatePattern zeroF 0 vzero psSteadyW 0
          ≤ max psSteadyW.MinIntensity psSteadyW.MaxIntensity) :=
  ⟨fun x => by norm_num [zeroF], by decide, by decide,
   C3_lerp_within_min_max zeroF 0 (fun x => by norm_num [zeroF]) vzero
     psSteadyW 0 (by decide) (by decide)⟩

/-! ### C2: the standalone library evaluator versus the spec table -/

/-- Claim C2 counterexample: with the bounded sine oracle constantly 1/2,
the library evaluator returns 31/40 for Fire at time 1, speed 1, while the
spec table formula 0.7 + 0.3·sin(8t)·sin(4.3t)·sin(2.1t) gives 59/80: the
library drops the sin(2.1t) factor, so the two disagree. -/
theorem C2_counterexample_fire_mismatch :
    (∀ x : ℚ, |halfF x| ≤ 1)
    ∧ LibraryEvaluatePattern halfF 0 .Fire 1 1 = 31/40
    ∧ SpecTablePattern halfF 0 vzero none .Fire (1 * 1) = 59/80
    ∧ (31/40 : ℚ) ≠ 59/80 := by
  refine ⟨fun x => by norm_num [halfF, abs_le], ?_, ?_, by norm_num⟩
  · norm_num [LibraryEvaluatePattern, halfF]
  · norm_num [SpecTablePattern, halfF]

/-- Claim C2 (amended): the library evaluator agrees with the section 4.1
table exactly for Steady, Pulse, Flicker, Strobe, Candle and Alarm (with
t = Time × Speed); for Fire it computes 0.7 + 0.3·sin(8t)·sin(4.3t),
dropping the table's sin(2.1t) factor; and for every remaining kind
(Fluorescent, Lightning, Underwater, Heartbeat, Breathing, Custom) it falls
through to the default and returns 1 regardless of the table formula. -/
theorem C2_library_table_agreement (fsin : ℚ → ℚ) (fpi : ℚ) (time speed : ℚ)
    (loc : Vec3) (cc : Option CurveFloat) :
    (LibraryEvaluatePattern fsin fpi .Steady time speed
        = SpecTablePattern fsin fpi loc cc .Steady (time * speed))
    ∧ (LibraryEvaluatePattern fsin fpi .Pulse time speed
        = SpecTablePattern fsin fpi loc cc .Pulse (time * speed))
    ∧ (LibraryEvaluatePattern fsin fpi .Flicker time speed
        = SpecTablePattern fsin fpi loc cc .Flicker (time * speed))
    ∧ (LibraryEvaluatePattern fsin fpi .Strobe time speed
        = SpecTablePattern fsin fpi loc cc .Strobe (time * speed))
    ∧ (LibraryEvaluatePattern fsin fpi .Candle time speed
        = SpecTablePattern fsin fpi loc cc .Candle (time * speed))
    ∧ (LibraryEvaluatePattern fsin fpi .Alarm time speed
        = SpecTablePattern fsin fpi loc cc .Alarm (time * speed))
    ∧ (LibraryEvaluatePattern fsin fpi .Fire time speed
        = 7/10 + 3/10 * fsin (time * speed * 8) * fsin (time * speed * (43/10)))
    ∧ (LibraryEvaluatePattern fsin fpi .Fluorescent time speed = 1)
    ∧ (LibraryEvaluatePattern fsin fpi .Lightning time speed = 1)
    ∧ (LibraryEvaluatePattern fsin fpi .Underwater time speed = 1)
    ∧ (LibraryEvaluatePattern fsin fpi .Heartbeat time speed = 1)
    ∧ (LibraryEvaluatePattern fsin fpi .Breathing time speed = 1)
    ∧ (LibraryEvaluatePattern fsin fpi .Custom time speed = 1) := by
  refine ⟨rfl, ?_, ?_, ?_, ?_, ?_, rfl, rfl, rfl, rfl, rfl, rfl, rfl⟩
  · simp only [LibraryEvaluatePattern, SpecTablePattern]
    rw [show time * speed * 2 * fpi = 2 * fpi * (time * speed) by ring]
  · simp only [LibraryEvaluatePattern, SpecTablePattern]
    rw [show time * speed * 20 = 20 * (time * speed) by ring,
      show time * speed * (73/10) = (73/10) * (time * speed) by ring]
  · simp only [LibraryEvaluatePattern, SpecTablePattern]
    rw [show time * speed * 10 = 10 * (time * speed) by ring]
  · simp only [LibraryEvaluatePattern, SpecTablePattern]
    rw [show time * speed * 12 = 12 * (time * speed) by ring,
      show time * speed * (57/10) = (57/10) * (time * speed) by ring,
      show time * speed * (31/10) = (31/10) * (time * speed) by ring]
  · simp only [LibraryEvaluatePattern, SpecTablePattern]
    rw [show time * speed * 4 = 4 * (time * speed) by ring]

/-! ### C8: Custom pattern with no curve configured -/

/-- A Custom configuration with no curve, MinIntensity 2, MaxIntensity 5. -/
def psCustomC8 : FPatternLightSettings :=
  { Pattern := .Custom, Speed := 1, PhaseOffset := 0, MinIntensity := 2,
    MaxIntensity := 5, CustomCurve := none, bEnableColorShift := false,
    ColorCurve := none }

/-- Claim C8 counterexample: with kind Custom and no curve, the evaluator
returns MaxIntensity (here 5), not MinIntensity (here 2): the local Value
variable keeps its 1.0 initializer, so the lerp lands on the max endpoint. -/
theorem C8_counterexample_custom_defaults_to_max :
    psCustomC8.CustomCurve = none
    ∧ EvaluatePattern zeroF 0 vzero psCustomC8 3 = 5
    ∧ psCustomC8.MinIntensity = 2
    ∧ (5 : ℚ) ≠ 2 := by
  refine ⟨rfl, ?_, rfl, by norm_num⟩
  norm_num [EvaluatePattern, EvaluatePatternRaw, psCustomC8, flerp]

/-- Claim C8 (amended): for every time t, when the kind is Custom and no
custom curve is configured, the raw pattern value is 1 (the switch leaves
the 1.0f initializer untouched), so the configured result is
lerp(MinIntensity, MaxIntensity, 1) = MaxIntensity. -/
theorem C8_custom_no_curve_gives_max (fsin : ℚ → ℚ) (fpi : ℚ) (loc : Vec3)
    (ps : FPatternLightSettings) (t : ℚ) (hk : ps.Pattern = .Custom)
    (hc : ps.CustomCurve = none) :
    EvaluatePatternRaw fsin fpi loc ps t = 1
    ∧ EvaluatePattern fsin fpi loc ps t = ps.MaxIntensity := by
  have h1 : EvaluatePatternRaw fsin fpi loc ps t = 1 := by
    simp [EvaluatePatternRaw, hk, hc]
  refine ⟨h1, ?_⟩
  unfold EvaluatePattern
  rw [h1]
  unfold flerp
  ring

/-- Witness for C8 at a concrete configuration. -/
theorem C8_custom_no_curve_gives_max_witness :
    psCustomC8.Pattern = ELightPattern.Custom
    ∧ psCustomC8.CustomCurve = none
    ∧ EvaluatePattern zeroF 0 vzero psCustomC8 3 = psCustomC8.MaxIntensity :=
  ⟨rfl, rfl, (C8_custom_no_curve_gives_max zeroF 0 vzero psCustomC8 3 rfl rfl).2⟩

/-! ### C1: subsystem tick, pause gating, and the absence of compounding -/

/-- A light whose per-light pattern speed is 3. -/
def lC1 : LightState :=
  { PatternSettings :=
      { Pattern := .Steady, Speed := 3, PhaseOffset := 0, MinIntensity := 0,
        MaxIntensity := 1, CustomCurve := none, bEnableColorShift := false,
        ColorCurve := none },
    BaseColor := blackColor, BaseIntensity := 5000, LightRadius := 1000,
    Location := vzero, CurrentTime := 0, FlashTimer := 0,
    FlashIntensityMultiplier := 1 }

/-- An enabled, unpaused subsystem with GlobalSpeed 2 and lC1 registered. -/
def stC1 : SubsystemState :=
  { GlobalConfig := { bEnabled := true, GlobalIntensity := 1, GlobalSpeed := 2 },
    MasterTime := 0, RegisteredLights := [some lC1], bPaused := false,
    CleanupTimer := 0 }

/-- Claim C1 counterexample: with the system enabled and not paused,
GlobalSpeed = 2 and a registered light of speed 3, the subsystem tick of
dt = 1 leaves the registered light's phase time at 0 (the subsystem never
advances lights), and even the component's own tick advances the phase by
dt × speed = 3, not by dt × speed × globalSpeed = 6 as the claim states. -/
theorem C1_counterexample_no_compounding :
    stC1.GlobalConfig.bEnabled = true
    ∧ stC1.bPaused = false
    ∧ (Tick 1 stC1).RegisteredLights = [some lC1]
    ∧ lC1.CurrentTime = 0
    ∧ (TickComponent 1 lC1).CurrentTime = 3
    ∧ (3 : ℚ) ≠ 1 * 3 * 2 := by
  refine ⟨rfl, rfl, ?_, rfl, ?_, by norm_num⟩
  · norm_num [Tick, stC1]
  · norm_num [TickComponent, lC1]

/-- Claim C1 (amended): when enabled and not paused, the subsystem tick
advances MasterTime by dt × GlobalSpeed and never modifies a registered
light (every surviving registry entry is one of the previous entries,
unchanged); when disabled or paused it is a no-op.  A light's phase time is
advanced by the component's own tick, by dt × its own Speed only: the
global speed does not compound and the subsystem flags do not gate it. -/
theorem C1_tick_master_time_and_light_phase (st : SubsystemState) (dt : ℚ)
    (l : LightState) :
    (st.GlobalConfig.bEnabled = true → st.bPaused = false →
      (Tick dt st).MasterTime = st.MasterTime + dt * st.GlobalConfig.GlobalSpeed
      ∧ ∀ o ∈ (Tick dt st).RegisteredLights, o ∈ st.RegisteredLights)
    ∧ ((st.GlobalConfig.bEnabled = false ∨ st.bPaused = true) → Tick dt st = st)
    ∧ (TickComponent dt l).CurrentTime = l.CurrentTime + dt * l.PatternSettings.Speed := by
  refine ⟨?_, ?_, ?_⟩
  · intro hE hP
    by_cases hct : st.CleanupTimer + dt > 5
    · constructor
      · simp [Tick, hE, hP, hct, CleanupStaleReferences]
      · intro o ho
        simp only [Tick, hE, hP] at ho
        simp only [Bool.not_true, Bool.false_or, if_false] at ho
        rw [if_pos hct] at ho
        simp only [CleanupStaleReferences] at ho
        exact List.mem_of_mem_filter ho
    · constructor
      · simp [Tick, hE, hP, hct]
      · intro o ho
        simp only [Tick, hE, hP] at ho
        simp only [Bool.not_true, Bool.false_or, if_false] at ho
        rw [if_neg hct] at ho
        exact ho
  · intro h
    rcases h with h | h <;> simp [Tick, h]
  · simp only [TickComponent]
    split_ifs <;> rfl

/-- A paused copy of stC1, used by the C1 witness. -/
def stPausedW : SubsystemState := { stC1 with bPaused := true }

/-- Witness for C1: concrete states discharging both implications. -/
theorem C1_tick_master_time_and_light_phase_witness :
    (Tick 1 stC1).MasterTime = stC1.MasterTime + 1 * stC1.GlobalConfig.GlobalSpeed
    ∧ Tick 1 stPausedW = stPausedW
    ∧ (TickComponent 1 lC1).CurrentTime = lC1.CurrentTime + 1 * lC1.PatternSettings.Speed :=
  ⟨((C1_tick_master_time_and_light_phase stC1 1 lC1).1 rfl rfl).1,
   (C1_tick_master_time_and_light_phase stPausedW 1 lC1).2.1 (Or.inr rfl),
   (C1_tick_master_time_and_light_phase stC1 1 lC1).2.2⟩

/-! ### C6 and C10: the flash overlay -/

/-- A light with a running flash timer of 1 second. -/
def lFlashW : LightState :=
  { PatternSettings := psSteadyW, BaseColor := blackColor, BaseIntensity := 1,
    LightRadius := 1, Location := vzero, CurrentTime := 0, FlashTimer := 1,
    FlashIntensityMultiplier := 1 }

/-- A tick against a positive flash timer decrements it by dt. -/
lemma tickComponent_pos_timer (dt : ℚ) (l : LightState) (h1 : 0 < l.FlashTimer) :
    (TickComponent dt l).FlashTimer = l.FlashTimer - dt := by
  by_cases h2 : l.FlashTimer - dt ≤ 0 <;> simp [TickComponent, h1, h2]

/-- When the decremented timer crosses ≤ 0, the multiplier resets to 1. -/
lemma tickComponent_reset (dt : ℚ) (l : LightState) (h1 : 0 < l.FlashTimer)
    (h2 : l.FlashTimer - dt ≤ 0) :
    (TickComponent dt l).FlashIntensityMultiplier = 1 := by
  simp [TickComponent, h1, h2]

/-- While the decremented timer is still positive, the multiplier stays. -/
lemma tickComponent_stay (dt : ℚ) (l : LightState) (h1 : 0 < l.FlashTimer)
    (h2 : ¬(l.FlashTimer - dt ≤ 0)) :
    (TickComponent dt l).FlashIntensityMultiplier = l.FlashIntensityMultiplier := by
  simp [TickComponent, h1, h2]

/-- Claim C6: TriggerFlash sets FlashTimer and FlashIntensityMultiplier; a
tick with a positive timer decrements it by dt and resets the multiplier to
1 exactly when the decremented timer crosses ≤ 0; the 0.1-second flash of
multiplier 10 still reads 10 after 0.05 seconds and reads 1 once more than
0.1 seconds have elapsed in total; and a new trigger plainly overwrites the
previous one. -/
theorem C6_flash_trigger_and_decay (l : LightState) (d m d2 m2 dt dt2 : ℚ)
    (hpos : 0 < l.FlashTimer) (hdt2 : 1/20 < dt2) :
    (TriggerFlash d m l).FlashTimer = d
    ∧ (TriggerFlash d m l).FlashIntensityMultiplier = m
    ∧ (TickComponent dt l).FlashTimer = l.FlashTimer - dt
    ∧ (l.FlashTimer - dt ≤ 0 → (TickComponent dt l).FlashIntensityMultiplier = 1)
    ∧ (0 < l.FlashTimer - dt →
        (TickComponent dt l).FlashIntensityMultiplier = l.FlashIntensityMultiplier)
    ∧ (TickComponent (1/20) (TriggerFlash (1/10) 10 l)).FlashIntensityMultiplier = 10
    ∧ (TickComponent dt2 (TickComponent (1/20) (TriggerFlash (1/10) 10 l))).FlashIntensityMultiplier = 1
    ∧ TriggerFlash d m (TriggerFlash d2 m2 l) = TriggerFlash d m l := by
  refine ⟨rfl, rfl, tickComponent_pos_timer dt l hpos,
    fun hc => tickComponent_reset dt l hpos hc,
    fun hc => tickComponent_stay dt l hpos (not_le.mpr hc), ?_, ?_, rfl⟩
  · have hstay := tickComponent_stay (1/20) (TriggerFlash (1/10) 10 l)
      (by norm_num [TriggerFlash]) (by norm_num [TriggerFlash])
    rw [hstay]
    rfl
  · have htimer := tickComponent_pos_timer (1/20) (TriggerFlash (1/10) 10 l)
      (by norm_num [TriggerFlash])
    apply tickComponent_reset dt2 _ ?_ ?_
    · rw [htimer]
      norm_num [TriggerFlash]
    · rw [htimer]
      simp only [TriggerFlash]
      linarith

/-- Witness for C6: the 0.05-then-past-0.1 scenario at a concrete light. -/
theorem C6_flash_trigger_and_decay_witness :
    (0 < lFlashW.FlashTimer ∧ (1:ℚ)/20 < 1)
    ∧ (TickComponent 1 (TickComponent (1/20) (TriggerFlash (1/10) 10 lFlashW))).FlashIntensityMultiplier = 1 :=
  ⟨⟨by norm_num [lFlashW], by norm_num⟩,
   (C6_flash_trigger_and_decay lFlashW 0 0 0 0 0 1 (by norm_num [lFlashW])
     (by norm_num)).2.2.2.2.2.2.1⟩

/-- Ticks never touch the flash state once the timer is non-positive: the
reset branch only runs when the pre-tick timer is strictly positive. -/
lemma tickSeq_flash_frozen (dts : List ℚ) : ∀ l : LightState, l.FlashTimer ≤ 0 →
    (TickSeq dts l).FlashTimer = l.FlashTimer
    ∧ (TickSeq dts l).FlashIntensityMultiplier = l.FlashIntensityMultiplier := by
  induction dts with
  | nil => exact fun l _ => ⟨rfl, rfl⟩
  | cons dt rest ih =>
      intro l h
      have hstep : (TickComponent dt l).FlashTimer = l.FlashTimer
          ∧ (TickComponent dt l).FlashIntensityMultiplier = l.FlashIntensityMultiplier := by
        simp only [TickComponent]
        rw [if_neg (not_lt.mpr h)]
        exact ⟨rfl, rfl⟩
      have h2 : (TickComponent dt l).FlashTimer ≤ 0 := by rw [hstep.1]; exact h
      refine ⟨?_, ?_⟩
      · calc (TickSeq (dt :: rest) l).FlashTimer
            = (TickSeq rest (TickComponent dt l)).FlashTimer := rfl
          _ = (TickComponent dt l).FlashTimer := (ih _ h2).1
          _ = l.FlashTimer := hstep.1
      · calc (TickSeq (dt :: rest) l).FlashIntensityMultiplier
            = (TickSeq rest (TickComponent dt l)).FlashIntensityMultiplier := rfl
          _ = (TickComponent dt l).FlashIntensityMultiplier := (ih _ h2).2
          _ = l.FlashIntensityMultiplier := hstep.2

/-- Claim C10: a TriggerFlash with non-positive duration installs the
multiplier and no subsequent sequence of ticks ever resets it to 1, because
the reset path requires a strictly positive timer before the tick. -/
theorem C10_nonpositive_duration_persists (l : LightState) (d m : ℚ)
    (hd : d ≤ 0) (dts : List ℚ) :
    (TriggerFlash d m l).FlashIntensityMultiplier = m
    ∧ (TickSeq dts (TriggerFlash d m l)).FlashIntensityMultiplier = m := by
  refine ⟨rfl, ?_⟩
  exact (tickSeq_flash_frozen dts (TriggerFlash d m l) hd).2

/-- Witness for C10: duration -1, multiplier 7, two subsequent ticks. -/
theorem C10_nonpositive_duration_persists_witness :
    ((-1 : ℚ) ≤ 0)
    ∧ (TickSeq [1, 2] (TriggerFlash (-1) 7 lFlashW)).FlashIntensityMultiplier = 7 :=
  ⟨by norm_num,
   (C10_nonpositive_duration_persists lFlashW (-1) 7 (by norm_num) [1, 2]).2⟩

/-! ### C7: sync groups -/

/-- Claim C7: when a group has at least two live members, SyncGroup makes
the first live member the master, leaves it unchanged (it stays the head),
and afterwards every live member reports the master's CurrentTime and
PhaseOffset. -/
theorem C7_sync_group_aligns (g : List (Option LightState)) (master : LightState)
    (rest : List LightState) (hg : GetLightsInSyncGroup g = master :: rest)
    (h2 : rest ≠ []) :
    SyncGroupRun g = master :: rest.map (fun l => SyncWith master l)
    ∧ (SyncGroupRun g).head? = some master
    ∧ ∀ l ∈ SyncGroupRun g, l.CurrentTime = master.CurrentTime
        ∧ l.PatternSettings.PhaseOffset = master.PatternSettings.PhaseOffset := by
  have hpos : 0 < rest.length := List.length_pos.mpr h2
  have hlen : (master :: rest).length > 1 := by
    simp only [List.length_cons]
    omega
  have hrun : SyncGroupRun g = master :: rest.map (fun l => SyncWith master l) := by
    simp only [SyncGroupRun, hg]
    rw [if_pos hlen]
  refine ⟨hrun, by rw [hrun]; rfl, ?_⟩
  intro l hl
  rw [hrun] at hl
  rcases List.mem_cons.mp hl with h | h
  · subst h; exact ⟨rfl, rfl⟩
  · obtain ⟨x, hx, rfl⟩ := List.mem_map.mp h
    exact ⟨rfl, rfl⟩

/-- Three live lights with distinct phase times, plus one stale entry. -/
def lSyncA : LightState := { lFlashW with CurrentTime := 5 }

/-- Second sync-group member. -/
def lSyncB : LightState := { lFlashW with CurrentTime := 7 }

/-- Third sync-group member. -/
def lSyncC : LightState := { lFlashW with CurrentTime := 9 }

/-- A sync-group member list with a stale entry in second position. -/
def gSyncW : List (Option LightState) := [some lSyncA, none, some lSyncB, some lSyncC]

/-- Witness for C7: the three-light scenario from the spec. -/
theorem C7_sync_group_aligns_witness :
    GetLightsInSyncGroup gSyncW = lSyncA :: [lSyncB, lSyncC]
    ∧ SyncGroupRun gSyncW = lSyncA :: [lSyncB, lSyncC].map (fun l => SyncWith lSyncA l) :=
  ⟨rfl, (C7_sync_group_aligns gSyncW lSyncA [lSyncB, lSyncC] rfl (by simp)).1⟩

/-! ### C9: clamped global setters -/

/-- Claim C9: SetGlobalIntensity stores exactly clamp(x, 0, 2),
SetGlobalSpeed stores exactly clamp(x, 0.1, 5) and SetPatternSpeed stores
exactly clamp(x, 0.01, 10); each stored value therefore lies inside its
documented range for every input, out-of-range values included, and since
each setter overwrites its field with the clamped value, the fields stay in
range after any sequence of setter calls. -/
theorem C9_setters_clamp (st : SubsystemState) (l : LightState) (x y z : ℚ) :
    ((SetGlobalIntensity x st).GlobalConfig.GlobalIntensity = fclamp x 0 2
      ∧ 0 ≤ (SetGlobalIntensity x st).GlobalConfig.GlobalIntensity
      ∧ (SetGlobalIntensity x st).GlobalConfig.GlobalIntensity ≤ 2)
    ∧ ((SetGlobalSpeed y st).GlobalConfig.GlobalSpeed = fclamp y (1/10) 5
      ∧ 1/10 ≤ (SetGlobalSpeed y st).GlobalConfig.GlobalSpeed
      ∧ (SetGlobalSpeed y st).GlobalConfig.GlobalSpeed ≤ 5)
    ∧ ((SetPatternSpeed z l).PatternSettings.Speed = fclamp z (1/100) 10
      ∧ 1/100 ≤ (SetPatternSpeed z l).PatternSettings.Speed
      ∧ (SetPatternSpeed z l).PatternSettings.Speed ≤ 10) :=
  ⟨⟨rfl, (fclamp_mem x 0 2 (by norm_num)).1, (fclamp_mem x 0 2 (by norm_num)).2⟩,
   ⟨rfl, (fclamp_mem y (1/10) 5 (by norm_num)).1, (fclamp_mem y (1/10) 5 (by norm_num)).2⟩,
   ⟨rfl, (fclamp_mem z (1/100) 10 (by norm_num)).1, (fclamp_mem z (1/100) 10 (by norm_num)).2⟩⟩

/-! ### C4: combined intensity query -/

/-- The contribution of one registry entry to the intensity sum: 0 for a
stale entry or a light not strictly within its own radius, otherwise
currentIntensity × (1 - distance/radius)². -/
def intensityContribution (fsin : ℚ → ℚ) (fpi : ℚ) (dist : Vec3 → Vec3 → ℚ)
    (p : Vec3) : Option LightState → ℚ
  | none => 0
  | some l =>
      let d := dist p l.Location
      if d < l.LightRadius then
        GetCurrentIntensity fsin fpi l * (1 - d / l.LightRadius)^2
      else 0

lemma combinedIntensityLoop_eq (fsin : ℚ → ℚ) (fpi : ℚ)
    (dist : Vec3 → Vec3 → ℚ) (p : Vec3) :
    ∀ (lts : List (Option LightState)) (a : ℚ),
      combinedIntensityLoop fsin fpi dist p a lts
        = a + (lts.map (intensityContribution fsin fpi dist p)).sum := by
  intro lts
  induction lts with
  | nil => intro a; simp [combinedIntensityLoop]
  | cons o rest ih =>
      intro a
      cases o with
      | none =>
          simp only [combinedIntensityLoop, List.map_cons, List.sum_cons]
          rw [ih]
          simp [intensityContribution]
      | some l =>
          simp only [combinedIntensityLoop, List.map_cons, List.sum_cons]
          rw [ih]
          by_cases h : dist p l.Location < l.LightRadius
          · simp only [intensityContribution, if_pos h]
            ring
          · simp only [intensityContribution, if_neg h]
            ring

/-- Claim C4: GetCombinedIntensityAt equals GlobalIntensity times the sum of
per-light contributions currentIntensity × (1 - d/r)² over live in-range
lights; a light exactly at d = r contributes nothing (prepending it leaves
the result unchanged); a single light at d = 0 contributes its full current
intensity (scaled by GlobalIntensity); the empty registry yields 0. -/
theorem C4_combined_intensity (fsin : ℚ → ℚ) (fpi : ℚ)
    (dist : Vec3 → Vec3 → ℚ) (st : SubsystemState) (p : Vec3) (l : LightState) :
    (GetCombinedIntensityAt fsin fpi dist st p
       = st.GlobalConfig.GlobalIntensity
         * (st.RegisteredLights.map (intensityContribution fsin fpi dist p)).sum)
    ∧ (dist p l.Location = l.LightRadius →
        GetCombinedIntensityAt fsin fpi dist
            { st with RegisteredLights := some l :: st.RegisteredLights } p
          = GetCombinedIntensityAt fsin fpi dist st p)
    ∧ (dist p l.Location = 0 → 0 < l.LightRadius →
        GetCombinedIntensityAt fsin fpi dist
            { st with RegisteredLights := [some l] } p
          = st.GlobalConfig.GlobalIntensity * GetCurrentIntensity fsin fpi l)
    ∧ GetCombinedIntensityAt fsin fpi dist { st with RegisteredLights := [] } p = 0 := by
  refine ⟨?_, ?_, ?_, ?_⟩
  · unfold GetCombinedIntensityAt
    rw [combinedIntensityLoop_eq]
    ring
  · intro hdr
    unfold GetCombinedIntensityAt
    rw [combinedIntensityLoop_eq, combinedIntensityLoop_eq]
    have hz : intensityContribution fsin fpi dist p (some l) = 0 := by
      simp only [intensityContribution]
      rw [if_neg]
      rw [hdr]
      exact lt_irrefl _
    simp [hz]
  · intro h0 hr
    unfold GetCombinedIntensityAt
    rw [combinedIntensityLoop_eq]
    have hc : intensityContribution fsin fpi dist p (some l)
        = GetCurrentIntensity fsin fpi l := by
      simp only [intensityContribution]
      rw [if_pos (by rw [h0]; exact hr)]
      rw [h0]
      simp
    simp [hc]
    ring
  · unfold GetCombinedIntensityAt
    rw [combinedIntensityLoop_eq]
    simp

/-- A distance oracle that always returns 0 (query point on every light). -/
def distZeroW : Vec3 → Vec3 → ℚ := fun _ _ => 0

/-- Witness for C4: single light at distance 0 with positive radius. -/
theorem C4_combined_intensity_witness :
    distZeroW vzero lFlashW.Location = 0
    ∧ (0 : ℚ) < lFlashW.LightRadius
    ∧ GetCombinedIntensityAt zeroF 0 distZeroW
        { stC1 with RegisteredLights := [some lFlashW] } vzero
      = stC1.GlobalConfig.GlobalIntensity * GetCurrentIntensity zeroF 0 lFlashW :=
  ⟨rfl, by norm_num [lFlashW],
   (C4_combined_intensity zeroF 0 distZeroW stC1 vzero lFlashW).2.2.1 rfl
     (by norm_num [lFlashW])⟩

/-! ### C5: combined color query -/

/-- The weight of one registry entry in the color blend:
(1 - d/r) × currentIntensity for a live in-range light, otherwise 0. -/
def colorWeight (fsin : ℚ → ℚ) (fpi : ℚ) (dist : Vec3 → Vec3 → ℚ)
    (p : Vec3) : Option LightState → ℚ
  | none => 0
  | some l =>
      let d := dist p l.Location
      if d < l.LightRadius then
        (1 - d / l.LightRadius) * GetCurrentIntensity fsin fpi l
      else 0

/-- The weighted color of one registry entry: currentColor scaled by its
weight for a live in-range light, otherwise the zero color. -/
def weightedColor (fsin : ℚ → ℚ) (fpi : ℚ) (dist : Vec3 → Vec3 → ℚ)
    (p : Vec3) : Option LightState → LinearColor
  | none => zeroColor
  | some l =>
      let d := dist p l.Location
      if d < l.LightRadius then
        colorScale (GetCurrentColor l)
          ((1 - d / l.LightRadius) * GetCurrentIntensity fsin fpi l)
      else zeroColor

/-- Componentwise sum of a list of colors. -/
def colorSum (cs : List LinearColor) : LinearColor := cs.foldr colorAdd zeroColor

lemma colorAdd_zeroColor (c : LinearColor) : colorAdd c zeroColor = c := by
  cases c
  simp [colorAdd, zeroColor]

lemma zeroColor_colorAdd (c : LinearColor) : colorAdd zeroColor c = c := by
  cases c
  simp [colorAdd, zeroColor]

lemma colorAdd_assoc (a b c : LinearColor) :
    colorAdd (colorAdd a b) c = colorAdd a (colorAdd b c) := by
  cases a
  cases b
  cases c
  simp only [colorAdd, LinearColor.mk.injEq]
  refine ⟨by ring, by ring, by ring, by ring⟩

lemma colorSum_all_zero (cs : List LinearColor) (h : ∀ c ∈ cs, c = zeroColor) :
    colorSum cs = zeroColor := by
  induction cs with
  | nil => rfl
  | cons c rest ih =>
      have hc : c = zeroColor := h c (List.mem_cons_self c rest)
      have hrest : colorSum rest = zeroColor :=
        ih fun x hx => h x (List.mem_cons_of_mem c hx)
      simp only [colorSum, List.foldr_cons] at *
      rw [hc, hrest]
      exact zeroColor_colorAdd zeroColor

lemma combinedColorLoop_eq (fsin : ℚ → ℚ) (fpi : ℚ)
    (dist : Vec3 → Vec3 → ℚ) (p : Vec3) :
    ∀ (lts : List (Option LightState)) (c : LinearColor) (w : ℚ),
      combinedColorLoop fsin fpi dist p c w lts
        = (colorAdd c (colorSum (lts.map (weightedColor fsin fpi dist p))),
           w + (lts.map (colorWeight fsin fpi dist p)).sum) := by
  intro lts
  induction lts with
  | nil =>
      intro c w
      simp [combinedColorLoop, colorSum, colorAdd_zeroColor]
  | cons o rest ih =>
      intro c w
      cases o with
      | none =>
          simp only [combinedColorLoop, List.map_cons]
          rw [ih]
          simp only [weightedColor, colorWeight, colorSum, List.foldr_cons,
            List.sum_cons]
          rw [zeroColor_colorAdd]
          congr 1
          ring
      | some l =>
          simp only [combinedColorLoop, List.map_cons]
          by_cases h : dist p l.Location < l.LightRadius
          · rw [if_pos h, ih]
            simp only [weightedColor, colorWeight, if_pos h, colorSum,
              List.foldr_cons, List.sum_cons]
            rw [colorAdd_assoc]
            congr 1
            ring
          · rw [if_neg h, ih]
            simp only [weightedColor, colorWeight, if_neg h, colorSum,
              List.foldr_cons, List.sum_cons]
            rw [zeroColor_colorAdd]
            congr 1
            ring

/-- Claim C5 (amended): GetCombinedColorAt returns the weight-summed color
(accumulated from Black) divided by the total weight when that total is
positive, and the undivided accumulator otherwise; in particular, when no
live light lies strictly within its radius of the query point every weight
is zero and the result is exactly Black, with no division performed.  When
the total weight is zero but individual weights cancel, the undivided,
generally non-black accumulator is returned instead. -/
theorem C5_combined_color (fsin : ℚ → ℚ) (fpi : ℚ) (dist : Vec3 → Vec3 → ℚ)
    (st : SubsystemState) (p : Vec3) :
    (GetCombinedColorAt fsin fpi dist st p
       = if 0 < (st.RegisteredLights.map (colorWeight fsin fpi dist p)).sum then
           colorDiv
             (colorAdd blackColor
               (colorSum (st.RegisteredLights.map (weightedColor fsin fpi dist p))))
             ((st.RegisteredLights.map (colorWeight fsin fpi dist p)).sum)
         else
           colorAdd blackColor
             (colorSum (st.RegisteredLights.map (weightedColor fsin fpi dist p))))
    ∧ ((∀ l : LightState, some l ∈ st.RegisteredLights →
          ¬ dist p l.Location < l.LightRadius) →
        GetCombinedColorAt fsin fpi dist st p = blackColor) := by
  have hloop := combinedColorLoop_eq fsin fpi dist p st.RegisteredLights blackColor 0
  constructor
  · unfold GetCombinedColorAt
    rw [hloop]
    simp
  · intro h
    have hw : ∀ o ∈ st.RegisteredLights, colorWeight fsin fpi dist p o = 0 := by
      intro o ho
      cases o with
      | none => rfl
      | some l => simp [colorWeight, h l ho]
    have hW : (st.RegisteredLights.map (colorWeight fsin fpi dist p)).sum = 0 := by
      apply List.sum_eq_zero
      intro x hx
      obtain ⟨o, ho, rfl⟩ := List.mem_map.mp hx
      exact hw o ho
    have hc : ∀ o ∈ st.RegisteredLights,
        weightedColor fsin fpi dist p o = zeroColor := by
      intro o ho
      cases o with
      | none => rfl
      | some l => simp [weightedColor, h l ho]
    have hS : colorSum (st.RegisteredLights.map (weightedColor fsin fpi dist p))
        = zeroColor := by
      apply colorSum_all_zero
      intro x hx
      obtain ⟨o, ho, rfl⟩ := List.mem_map.mp hx
      exact hc o ho
    unfold GetCombinedColorAt
    rw [hloop]
    simp [hW, hS, colorAdd_zeroColor]

/-- A Steady configuration with MinIntensity 0, MaxIntensity 1. -/
def psSteady01 : FPatternLightSettings :=
  { Pattern := .Steady, Speed := 1, PhaseOffset := 0, MinIntensity := 0,
    MaxIntensity := 1, CustomCurve := none, bEnableColorShift := false,
    ColorCurve := none }

/-- A red light of current intensity 1 at the query point. -/
def lRedW : LightState :=
  { PatternSettings := psSteady01, BaseColor := ⟨1, 0, 0, 1⟩, BaseIntensity := 1,
    LightRadius := 1, Location := vzero, CurrentTime := 0, FlashTimer := 0,
    FlashIntensityMultiplier := 1 }

/-- A blue light whose flash multiplier is -1 (reachable through
TriggerFlash with a negative intensity argument), giving current
intensity -1. -/
def lBlueW : LightState :=
  { lRedW with BaseColor := ⟨0, 0, 1, 1⟩, FlashIntensityMultiplier := -1 }

/-- A registry holding the red and blue lights, with cancelling weights. -/
def stColorC5 : SubsystemState :=
  { GlobalConfig := { bEnabled := true, GlobalIntensity := 1, GlobalSpeed := 1 },
    MasterTime := 0, RegisteredLights := [some lRedW, some lBlueW],
    bPaused := false, CleanupTimer := 0 }

/-- Claim C5 counterexample: with both lights at the query point, weights
are +1 and -1, so the total weight is zero, yet GetCombinedColorAt returns
the accumulated sum (1, 0, -1, 1), not black: the zero-total-weight case
only skips the division, it does not return Black. -/
theorem C5_counterexample_zero_weight_not_black :
    (combinedColorLoop zeroF 0 distZeroW vzero blackColor 0
        stColorC5.RegisteredLights).2 = 0
    ∧ GetCombinedColorAt zeroF 0 distZeroW stColorC5 vzero = ⟨1, 0, -1, 1⟩
    ∧ GetCombinedColorAt zeroF 0 distZeroW stColorC5 vzero ≠ blackColor := by
  refine ⟨?_, ?_, ?_⟩ <;>
    norm_num [GetCombinedColorAt, combinedColorLoop, stColorC5, lRedW, lBlueW,
      psSteady01, distZeroW, GetCurrentIntensity, GetCurrentColor,
      EvaluatePattern, EvaluatePatternRaw, flerp, colorAdd, colorScale,
      blackColor, zeroF, vzero]

/-- An enabled subsystem with an empty registry. -/
def stEmptyW : SubsystemState := { stC1 with RegisteredLights := [] }

/-- Witness for C5: the empty registry returns Black. -/
theorem C5_combined_color_witness :
    GetCombinedColorAt zeroF 0 distZeroW stEmptyW vzero = blackColor :=
  (C5_combined_color zeroF 0 distZeroW stEmptyW vzero).2
    (by intro l hl; simp [stEmptyW] at hl)

end PatternLighting
